import Mathlib

/-!
# Verification of the adaptive feedback-learning pipeline

Shallow embedding of the feedback/learning services of the repository
(`backend/services/learning_service.py`, `feedback_service.py`,
`knowledge_service.py`, `ai_service.py`, `metrics_service.py`,
`celery_tasks.py`).  Numeric values are modelled as rationals, SQL rows as
lists of records, and Python dictionaries with optional keys as structures of
`Option` fields.  Python string lowercasing is modelled on ASCII letters
(`Char.toLower`), which agrees with Python for the lowercase keyword lists
used by the code.
-/

namespace OpenManus

/-- `charsStartWith pat l` is true when `pat` occurs at the head of `l`. -/
def charsStartWith : List Char → List Char → Bool
  | [], _ => true
  | _ :: _, [] => false
  | a :: as, b :: bs => a = b && charsStartWith as bs

/-- `charsContain pat l` is true when `pat` occurs contiguously in `l`. -/
def charsContain (pat : List Char) : List Char → Bool
  | [] => pat.isEmpty
  | b :: bs => charsStartWith pat (b :: bs) || charsContain pat bs

/-- Substring test: `strContains s pat` models Python's `pat in s`. -/
def strContains (s pat : String) : Bool :=
  charsContain pat.data s.data

/-- Python's `str.lower()`, modelled characterwise on ASCII letters (the
keyword lists the code compares against are already lowercase). -/
def strToLower (s : String) : String :=
  ⟨s.data.map Char.toLower⟩

/-! ## Model configuration and the parameter tuner (`ai_service.py`) -/

/-- The mutable model configuration held by `AIService.model_config`
(`ai_service.py` lines 22-28); only the three tuned keys are tracked. -/
structure ModelConfig where
  temperature : ℚ
  top_p : ℚ
  frequency_penalty : ℚ
deriving DecidableEq, Repr

/-- Initial configuration from `AIService.__init__`:
temperature 0.7, top_p 0.9, frequency_penalty 0.0. -/
def initialModelConfig : ModelConfig :=
  { temperature := 7/10, top_p := 9/10, frequency_penalty := 0 }

/-- The `feedback_analysis` dictionary consumed by
`AIService.optimize_model_parameters`; absent keys are `none` and the code
reads them with `.get(key, default)`. -/
structure FeedbackAnalysis where
  average_rating : Option ℚ
  total_feedback : Option ℕ
  negative_feedback_rate : Option ℚ
deriving DecidableEq, Repr

/-- The temperature adjustment of `optimize_model_parameters`
(`ai_service.py` lines 228-237): reads `average_rating` (default 3.0) and
`total_feedback` (default 0); a low rating on a sample of at least 10
lowers temperature with a 0.3 floor, a high rating raises it with a 0.9
ceiling. -/
def tuneTemperature (fa : FeedbackAnalysis) (cfg : ModelConfig) :
    ModelConfig :=
  if fa.average_rating.getD 3 < 3 ∧ 10 ≤ fa.total_feedback.getD 0 then
    { cfg with temperature := max (3/10) (cfg.temperature - 1/10) }
  else if 4 < fa.average_rating.getD 3 ∧ 10 ≤ fa.total_feedback.getD 0 then
    { cfg with temperature := min (9/10) (cfg.temperature + 1/10) }
  else cfg

/-- The second adjustment of `optimize_model_parameters` (lines 240-244):
a negative-feedback rate above 0.3 tightens `top_p` and
`frequency_penalty`, whatever the temperature branch did. -/
def tuneNegativeRate (fa : FeedbackAnalysis) (cfg : ModelConfig) :
    ModelConfig :=
  if 3/10 < fa.negative_feedback_rate.getD 0 then
    { cfg with
        top_p := max (7/10) (cfg.top_p - 1/10)
        frequency_penalty := min 1 (cfg.frequency_penalty + 1/10) }
  else cfg

/-- `AIService.optimize_model_parameters` (`ai_service.py` lines 220-249):
the temperature adjustment followed by the negative-rate adjustment. -/
def optimize_model_parameters (fa : FeedbackAnalysis) (cfg : ModelConfig) :
    ModelConfig :=
  tuneNegativeRate fa (tuneTemperature fa cfg)

/-! ## Learning sessions and the feedback trigger (`learning_service.py`) -/

/-- The `status` column of the `learning_sessions` table. -/
inductive SessionStatus
  | pending
  | running
  | completed
  | failed
deriving DecidableEq, Repr

/-- Top-level keys of a handler's result dictionary as stored into
`output_data` (the runner only inspects whether the key `"error"` is
present, so values are kept as strings). -/
def HandlerDict := List (String × String)
deriving DecidableEq

/-- A row of the `learning_sessions` table, with `input_data` split into the
fields written by `_check_model_optimization_trigger` (`trigger_message_id`,
`feedback_count`, `avg_rating`). -/
structure LearningSession where
  id : String
  session_type : String
  status : SessionStatus
  trigger_message_id : String
  feedback_count : ℕ
  avg_rating : ℚ
  output_data : Option HandlerDict
  error_message : Option String
deriving DecidableEq

/-- A row of the `feedback` table (the columns the trigger reads). -/
structure FeedbackRow where
  message_id : String
  rating : ℚ
deriving DecidableEq, Repr

/-- Database state seen by the trigger path: the `feedback` table and the
`learning_sessions` table. -/
structure TriggerState where
  feedback : List FeedbackRow
  sessions : List LearningSession

/-- `LearningService.feedback_threshold` (`learning_service.py` line 26). -/
def feedback_threshold : ℕ := 3

/-- `SELECT COUNT(*) FROM feedback WHERE message_id = :message_id`. -/
def countFeedback (st : TriggerState) (mid : String) : ℕ :=
  (st.feedback.filter (fun f => f.message_id = mid)).length

/-- `SELECT AVG(rating) FROM feedback WHERE message_id = :message_id`,
with the Python guard `float(avg_rating) if avg_rating else 0`. -/
def avgFeedbackRating (st : TriggerState) (mid : String) : ℚ :=
  let rs := st.feedback.filter (fun f => f.message_id = mid)
  if rs.length = 0 then 0 else (rs.map (·.rating)).sum / rs.length

/-- `LearningService._check_model_optimization_trigger`
(`learning_service.py` lines 169-204): counts the feedback rows for
`message_id` and, whenever the count reaches `feedback_threshold`, inserts a
new `pending` `model_optimization` session keyed by a fresh uuid `newId`.
There is no lookup of existing sessions before the insert. -/
def check_model_optimization_trigger (st : TriggerState) (mid : String)
    (newId : String) : TriggerState :=
  let count := countFeedback st mid
  if feedback_threshold ≤ count then
    { st with
        sessions := st.sessions ++
          [{ id := newId
             session_type := "model_optimization"
             status := .pending
             trigger_message_id := mid
             feedback_count := count
             avg_rating := avgFeedbackRating st mid
             output_data := none
             error_message := none }] }
  else st

/-- Sessions that reference a message as their trigger and are still
pending or running (the guard the specification describes would consult
exactly this set). -/
def activeSessionsFor (st : TriggerState) (mid : String) :
    List LearningSession :=
  st.sessions.filter (fun s =>
    s.trigger_message_id = mid ∧
      (s.status = .pending ∨ s.status = .running))

/-! ## The session runner (`learning_service.py` lines 206-261) -/

/-- Outcome of the type-specific handler as seen by `run_learning_session`:
either it returns a result dictionary, or it raises an exception whose
message is `msg`. -/
inductive HandlerOutcome
  | result (r : HandlerDict)
  | raises (msg : String)

/-- Whether a result dictionary carries the internal error marker
(Python `"error" in result`). -/
def hasErrorKey (r : HandlerDict) : Bool :=
  r.any (fun kv => kv.1 = "error")

/-- The first UPDATE of `run_learning_session` (lines 213-218):
`SET status = 'running', started_at = CURRENT_TIMESTAMP WHERE id = ...`.
The statement is unconditional on the current status. -/
def markRunning (s : LearningSession) : LearningSession :=
  { s with status := .running }

/-- The second UPDATE of `run_learning_session` (lines 231-240): stores the
handler's result as `output_data` and sets the status to `completed` or
`failed` according to the error marker; `error_message` is not touched. -/
def finalizeSession (s : LearningSession) (r : HandlerDict) :
    LearningSession :=
  { s with
      status := if hasErrorKey r then .failed else .completed
      output_data := some r }

/-- The exception path of `run_learning_session` (lines 248-261): sets
status `failed` and records the raised error's message; `output_data` is
not touched. -/
def markFailedSession (s : LearningSession) (msg : String) :
    LearningSession :=
  { s with status := .failed, error_message := some msg }

/-- `LearningService.run_learning_session` (lines 206-261) as a transition
on one session row: promote to `running`, run the handler, then either
finalize from the returned dictionary or record the exception. -/
def run_learning_session (s : LearningSession) (h : HandlerOutcome) :
    LearningSession :=
  match h with
  | .result r => finalizeSession (markRunning s) r
  | .raises msg => markFailedSession (markRunning s) msg

/-! ## Feedback processing (`learning_service.py` lines 38-167) -/

/-- Arguments of a `knowledge_service.add_knowledge_item` call (the date
placed in the title is irrelevant to the claims and is kept out). -/
structure KnowledgeWrite where
  content : String
  category : String
  source : String
  confidence_score : ℚ
deriving DecidableEq, Repr

/-- Arguments of a `metrics_service.record_system_metric` call. -/
structure SystemMetricWrite where
  name : String
  value : ℚ
deriving DecidableEq, Repr

/-- `LearningService._process_positive_feedback` (lines 82-117): a message
longer than 100 characters yields a `respostas_positivas` item (confidence
0.9, source `feedback_positivo`); a comment longer than 20 characters
yields an `insights_usuarios` item (confidence 0.8, source
`comentario_positivo`). -/
def process_positive_feedback (message_content : String)
    (comment : Option String) : List KnowledgeWrite :=
  (if 100 < message_content.length then
    [{ content := message_content
       category := "respostas_positivas"
       source := "feedback_positivo"
       confidence_score := 9/10 }]
  else []) ++
  (match comment with
   | some c =>
       if 20 < c.length then
         [{ content := c
            category := "insights_usuarios"
            source := "comentario_positivo"
            confidence_score := 8/10 }]
       else []
   | none => [])

/-- Keyword classification of `_process_negative_feedback` (lines 131-142):
each matching keyword set contributes its improvement area, in source
order. -/
def improvementAreasOf (comment : Option String) : List String :=
  match comment with
  | none => []
  | some c =>
      let cl := strToLower c
      (if ["lento", "devagar", "demora"].any (strContains cl) then
        ["performance"] else []) ++
      (if ["errado", "incorreto", "impreciso"].any (strContains cl) then
        ["accuracy"] else []) ++
      (if ["confuso", "não entendi", "vago"].any (strContains cl) then
        ["clarity"] else []) ++
      (if ["incompleto", "faltou"].any (strContains cl) then
        ["completeness"] else [])

/-- `LearningService._process_negative_feedback` (lines 119-167): classifies
the comment into improvement areas and records one
`improvement_needed_<area>` metric (value 1.0) per identified area; no
knowledge item is created on this path. -/
def process_negative_feedback (comment : Option String) :
    List SystemMetricWrite :=
  (improvementAreasOf comment).map
    (fun area => { name := "improvement_needed_" ++ area, value := 1 })

/-- The dispatch of `process_feedback_for_learning` (lines 64-72): positive
feedback goes to `_process_positive_feedback`, negative feedback to
`_process_negative_feedback`, ratings 3 to neither.  Returns the knowledge
items and the system metrics written. -/
def process_feedback_for_learning (rating : ℤ) (message_content : String)
    (comment : Option String) :
    List KnowledgeWrite × List SystemMetricWrite :=
  if 4 ≤ rating then
    (process_positive_feedback message_content comment, [])
  else if rating ≤ 2 then
    ([], process_negative_feedback comment)
  else
    ([], [])

/-- `_extract_improvement_area` (`celery_tasks.py` lines 117-130): the batch
classifier returning exactly one area, with `general` as the fallback. -/
def extract_improvement_area (comment : String) : String :=
  let cl := strToLower comment
  if ["lento", "devagar", "demora", "tempo"].any (strContains cl) then
    "performance"
  else if ["errado", "incorreto", "erro", "impreciso"].any
      (strContains cl) then
    "accuracy"
  else if ["confuso", "não entendi", "unclear", "vago"].any
      (strContains cl) then
    "clarity"
  else if ["incompleto", "faltou", "mais detalhes"].any
      (strContains cl) then
    "completeness"
  else
    "general"

/-- The improvement-area taxonomy named by the specification. -/
def improvementTaxonomy : List String :=
  ["performance", "accuracy", "clarity", "completeness", "general"]

/-! ## The model-optimization handler (`learning_service.py` lines 263-343) -/

/-- The aggregate row computed over the 7-day feedback window
(`SELECT AVG(rating), COUNT(*), COUNT(rating <= 2), COUNT(rating >= 4)`);
SQL `AVG` over an empty set is NULL, modelled as `none`. -/
structure FeedbackStats where
  avg_rating : Option ℚ
  total_feedback : ℕ
  negative_feedback : ℕ
  positive_feedback : ℕ
deriving DecidableEq, Repr

/-- The aggregate query of `_run_model_optimization` (lines 267-275)
evaluated over the ratings present in the window. -/
def statsOfRatings (ratings : List ℚ) : FeedbackStats :=
  { avg_rating :=
      if ratings.length = 0 then none
      else some (ratings.sum / ratings.length)
    total_feedback := ratings.length
    negative_feedback := (ratings.filter (fun r => r ≤ 2)).length
    positive_feedback := (ratings.filter (fun r => 4 ≤ r)).length }

/-- `LearningService._analyze_negative_patterns` (lines 493-515): keyword
scan over the concatenation of all negative comments. -/
def analyze_negative_patterns (comments : List String) : List String :=
  if comments.isEmpty then []
  else
    let all := strToLower (" ".intercalate comments)
    (if ["muito longo", "extenso", "prolixo"].any (strContains all) then
      ["response_length"] else []) ++
    (if ["técnico", "complexo", "difícil"].any (strContains all) then
      ["technical_complexity"] else []) ++
    (if ["impreciso", "errado", "incorreto"].any (strContains all) then
      ["technical_accuracy"] else []) ++
    (if ["vago", "genérico", "superficial"].any (strContains all) then
      ["response_depth"] else [])

/-- Outcome of `_run_model_optimization`: either the optimization result
(the `optimizations_applied` tags, the `negative_patterns` key when it was
set, the configuration after tuning) or the error dictionary produced by
the `except` clause. -/
inductive OptOutcome
  | ok (applied : List String) (patterns : Option (List String))
      (cfg : ModelConfig)
  | err (msg : String)
deriving DecidableEq

/-- `LearningService._run_model_optimization` (lines 263-343) over a window
holding `ratings` (with `negComments` the non-null comments of its negative
feedback) and the current model configuration.  With no feedback in the
window, `avg_rating` is NULL and the comparison `avg_rating < 3.0` raises,
ending in the error dictionary.  Low average with at least 10 entries tunes
conservatively and tags `conservative_tuning`; high average tunes
creatively and tags `creative_tuning`; more than 5 negative entries adds
the negative-pattern scan and its derived tags. -/
def run_model_optimization (ratings : List ℚ) (negComments : List String)
    (cfg : ModelConfig) : OptOutcome :=
  let s := statsOfRatings ratings
  match s.avg_rating with
  | none => .err "'<' not supported between instances of 'NoneType' and 'float'"
  | some avg =>
      let tuned :=
        if avg < 3 ∧ 10 ≤ s.total_feedback then
          (["conservative_tuning"],
            optimize_model_parameters
              { average_rating := some avg
                total_feedback := some s.total_feedback
                negative_feedback_rate := none } cfg)
        else if 4 < avg ∧ 10 ≤ s.total_feedback then
          (["creative_tuning"],
            optimize_model_parameters
              { average_rating := some avg
                total_feedback := some s.total_feedback
                negative_feedback_rate := none } cfg)
        else ([], cfg)
      if 5 < s.negative_feedback then
        let patterns := analyze_negative_patterns negComments
        let extra := patterns.filterMap (fun p =>
          if p = "response_length" then some "response_length_adjustment"
          else if p = "technical_accuracy" then
            some "technical_accuracy_improvement"
          else none)
        .ok (tuned.1 ++ extra) (some patterns) tuned.2
      else .ok tuned.1 none tuned.2

/-! ## Knowledge retention sweep (`knowledge_service.py` lines 268-305) -/

/-- A row of the `knowledge_base` table (the columns the sweep reads);
timestamps are rationals on an arbitrary scale. -/
structure KnowledgeItem where
  id : String
  usage_count : ℕ
  confidence_score : ℚ
  last_used_at : Option ℚ
  source : String
deriving DecidableEq, Repr

/-- The WHERE clause of the sweep's selection query
(`knowledge_service.py` lines 278-285):
`(last_used_at IS NULL OR last_used_at < :cutoff_date) AND usage_count < 5
AND confidence_score < 0.5 AND source != 'admin_input'`. -/
def cleanup_eligible (cutoff : ℚ) (it : KnowledgeItem) : Bool :=
  (match it.last_used_at with
   | none => true
   | some lu => lu < cutoff) &&
  it.usage_count < 5 &&
  it.confidence_score < 1/2 &&
  it.source ≠ "admin_input"

/-- The module-level names bound in `knowledge_service.py` (lines 6-15)
by its imports — the modules `uuid` and `json`, the names `Optional`,
`List`, `Dict`, `Any` (from `typing`), `AsyncSession` (from
`sqlalchemy.ext.asyncio`), `text` (from `sqlalchemy`), `datetime` (from
the `datetime` module), `logger` (from `app.logger`) — plus the class
itself.  `timedelta` is not among them. -/
def knowledgeServiceGlobals : List String :=
  ["uuid", "json", "Optional", "List", "Dict", "Any", "AsyncSession",
   "text", "datetime", "logger", "KnowledgeService"]

/-- Python name resolution against the module globals of
`knowledge_service.py`. -/
def resolvesInKnowledgeService (n : String) : Bool :=
  knowledgeServiceGlobals.contains n

/-- Result of running a Python block: normal completion or an uncaught
exception carrying its message. -/
inductive PyOutcome (α : Type)
  | ok (a : α)
  | exn (msg : String)
deriving DecidableEq

/-- The `try` body of `KnowledgeService.cleanup_old_knowledge` (lines
274-301).  Its first statement evaluates
`datetime.now() - timedelta(days=days_threshold)`, which resolves the
names `datetime` and `timedelta` in module scope before any query runs; an
unresolved name raises `NameError` there.  When both resolve, the body
selects the eligible rows and deletes them. -/
def cleanup_old_knowledge_body (now : ℚ) (store : List KnowledgeItem)
    (days_threshold : ℚ) : PyOutcome (List KnowledgeItem) :=
  if resolvesInKnowledgeService "datetime" then
    if resolvesInKnowledgeService "timedelta" then
      let cutoff_date := now - days_threshold
      .ok (store.filter (fun it => ¬ cleanup_eligible cutoff_date it))
    else .exn "NameError: name 'timedelta' is not defined"
  else .exn "NameError: name 'datetime' is not defined"

/-- `KnowledgeService.cleanup_old_knowledge` (lines 268-305): the body runs
under `try`; `except Exception` rolls the transaction back, logs, and
returns normally, leaving the store unchanged. -/
def cleanup_old_knowledge (now : ℚ) (store : List KnowledgeItem)
    (days_threshold : ℚ) : List KnowledgeItem :=
  match cleanup_old_knowledge_body now store days_threshold with
  | .ok store1 => store1
  | .exn _ => store

/-! ## Performance trends and alerts
(`metrics_service.py` lines 224-283, `celery_tasks.py` lines 384-447) -/

/-- One point of a daily-bucketed trend series (`DATE(timestamp)` key,
`AVG` value, `COUNT(*)` sample count). -/
structure DailyPoint where
  day : ℕ
  avg : ℚ
  samples : ℕ
deriving DecidableEq, Repr

/-- `GROUP BY DATE(...) ORDER BY date` over raw `(day, value)` rows:
one point per distinct day, averaging its values, days ascending. -/
def dailyAverages (rows : List (ℕ × ℚ)) : List DailyPoint :=
  let days := ((rows.map Prod.fst).dedup).insertionSort (· ≤ ·)
  days.map (fun d =>
    let vs := rows.filterMap (fun r => if r.1 = d then some r.2 else none)
    { day := d, avg := vs.sum / vs.length, samples := vs.length })

/-- A raw row of the `performance_metrics` table (name, day, value). -/
structure MetricRow where
  metric_name : String
  day : ℕ
  value : ℚ
deriving DecidableEq, Repr

/-- `MetricsService.get_performance_trends` (lines 224-283): the
`response_time` series from `performance_metrics` and the satisfaction
series from `feedback`, both daily-bucketed and ordered by date
ascending. -/
def get_performance_trends (metricRows : List MetricRow)
    (feedbackDays : List (ℕ × ℚ)) : List DailyPoint × List DailyPoint :=
  (dailyAverages
     ((metricRows.filter (fun r => r.metric_name = "response_time")).map
       (fun r => (r.day, r.value))),
   dailyAverages feedbackDays)

/-- An alert recorded through `metrics_service.record_metric` in
`_analyze_performance_trends_async`: metric name, value, metric type, the
`alert_type` label, and the `severity` field of the context payload. -/
structure AlertWrite where
  metric_name : String
  value : ℚ
  metric_type : String
  alert_type : String
  severity : String
deriving DecidableEq, Repr

/-- Python `trend[-3:]` for the trend lists (whose length is at least 3
whenever the code uses it). -/
def lastThree {α : Type} (l : List α) : List α :=
  l.drop (l.length - 3)

/-- `sum(recent) / len(recent)` over the 3 most recent points of a trend
series. -/
def recentMean (l : List DailyPoint) : ℚ :=
  ((lastThree l).map (·.avg)).sum / (lastThree l).length

/-- The alerting logic of `_analyze_performance_trends_async`
(`celery_tasks.py` lines 384-447): mean of the 3 most recent satisfaction
points below 3.0 emits a `satisfaction_decline` gauge (severity high);
mean of the 3 most recent response-time points above 5.0 emits a
`performance_degradation` gauge (severity medium). -/
def analyze_performance_trends (rt sat : List DailyPoint) :
    List AlertWrite :=
  (if 3 ≤ sat.length then
     if recentMean sat < 3 then
       [{ metric_name := "system_alert", value := recentMean sat
          metric_type := "gauge", alert_type := "satisfaction_decline"
          severity := "high" }]
     else []
   else []) ++
  (if 3 ≤ rt.length then
     if 5 < recentMean rt then
       [{ metric_name := "system_alert", value := recentMean rt
          metric_type := "gauge", alert_type := "performance_degradation"
          severity := "medium" }]
     else []
   else [])

/-- The whole weekly trend task: bucket the raw window rows as
`get_performance_trends` does, then apply the alert rules. -/
def analyze_trends_from_rows (metricRows : List MetricRow)
    (feedbackDays : List (ℕ × ℚ)) : List AlertWrite :=
  analyze_performance_trends
    (get_performance_trends metricRows feedbackDays).1
    (get_performance_trends metricRows feedbackDays).2

/-! ## Theorems -/

/-- C10: `cleanup_old_knowledge` references `timedelta`, which is not
bound in the module scope of `knowledge_service.py` (that module only
imports `datetime`), so the body raises `NameError` before any query; the exception
is caught inside the operation, which returns normally and leaves the
knowledge store unchanged, for every store and every threshold. -/
theorem cleanup_never_deletes (now : ℚ) (store : List KnowledgeItem)
    (days_threshold : ℚ) :
    cleanup_old_knowledge now store days_threshold = store ∧
    cleanup_old_knowledge_body now store days_threshold =
      .exn "NameError: name 'timedelta' is not defined" ∧
    resolvesInKnowledgeService "datetime" = true ∧
    resolvesInKnowledgeService "timedelta" = false := by
  have hd : resolvesInKnowledgeService "datetime" = true := by decide
  have ht : resolvesInKnowledgeService "timedelta" = false := by decide
  refine ⟨?_, ?_, hd, ht⟩ <;>
    simp [cleanup_old_knowledge, cleanup_old_knowledge_body, hd, ht]

/-- The item of the C5 scenario: `confidence_score=0.6`, `usage_count=0`,
`last_used_at=null`, `source≠admin_input`. -/
def c5Item : KnowledgeItem :=
  { id := "k1", usage_count := 0, confidence_score := 3/5
    last_used_at := none, source := "feedback_positivo" }

/-- C5, counterexample: with `now = 100` and the default 90-day threshold
(cutoff 10), the scenario item with `confidence_score = 0.6` does NOT match
the sweep's deletion query — the query requires `confidence_score < 0.5`,
so the claim that this item is eligible for deletion is false. -/
theorem retention_scenario_cex :
    cleanup_eligible (100 - 90) c5Item = false ∧
    c5Item.confidence_score = 3/5 ∧
    c5Item.usage_count = 0 ∧
    c5Item.last_used_at = none ∧
    c5Item.source ≠ "admin_input" := by
  refine ⟨?_, rfl, rfl, rfl, by decide⟩
  simp [cleanup_eligible, c5Item]
  norm_num

/-- C5, amended: the sweep's deletion query selects an item with
`confidence_score` below 0.5 (here 0.4), `usage_count = 0`,
`last_used_at = null` and `source ≠ admin_input`; an otherwise identical
item with `usage_count = 10` is not selected (the query requires
`usage_count < 5`), and one with `confidence_score = 0.6` is not selected
either (the query requires `confidence_score < 0.5`). -/
theorem retention_eligibility :
    cleanup_eligible (100 - 90) { c5Item with confidence_score := 2/5 } =
      true ∧
    cleanup_eligible (100 - 90)
      { c5Item with confidence_score := 2/5, usage_count := 10 } = false ∧
    cleanup_eligible (100 - 90) c5Item = false := by
  refine ⟨?_, ?_, ?_⟩ <;> simp [cleanup_eligible, c5Item] <;> norm_num

/-- The ratings of the C8 scenario. -/
def c8Ratings : List ℚ := [1, 1, 2, 2, 1, 2, 1, 2, 1, 2]

/-- C8: over a window holding exactly the 10 ratings
`[1,1,2,2,1,2,1,2,1,2]` (average 1.5) and no negative comments, with the
model at its initial temperature 0.7, `_run_model_optimization` applies
conservative tuning: the resulting temperature is
`max(0.3, 0.7-0.1) = 0.6` and the output tags `conservative_tuning`. -/
theorem conservative_tuning_scenario :
    run_model_optimization c8Ratings [] initialModelConfig =
      .ok ["conservative_tuning"] (some [])
        { temperature := 3/5, top_p := 9/10, frequency_penalty := 0 } ∧
    (3/5 : ℚ) = max (3/10) (7/10 - 1/10) ∧
    (statsOfRatings c8Ratings).avg_rating = some (3/2) ∧
    (statsOfRatings c8Ratings).total_feedback = 10 := by
  have hstats : statsOfRatings c8Ratings =
      { avg_rating := some (3/2), total_feedback := 10
        negative_feedback := 10, positive_feedback := 0 } := by
    simp [statsOfRatings, c8Ratings]
    norm_num
  refine ⟨?_, by norm_num, by rw [hstats], by rw [hstats]⟩
  rw [run_model_optimization, hstats]
  norm_num [optimize_model_parameters, tuneTemperature, tuneNegativeRate,
    analyze_negative_patterns, initialModelConfig]

/-- Initial state of the C1 scenario: three feedback rows for message
`m1`, no learning sessions. -/
def c1State0 : TriggerState :=
  { feedback := [{ message_id := "m1", rating := 2 },
                 { message_id := "m1", rating := 3 },
                 { message_id := "m1", rating := 4 }]
    sessions := [] }

/-- The C1 scenario after a trigger evaluation at count 3, a fourth
feedback row, and a second trigger evaluation at count 4. -/
def c1State2 : TriggerState :=
  let st1 := check_model_optimization_trigger c1State0 "m1" "s1"
  check_model_optimization_trigger
    { st1 with feedback := st1.feedback ++ [{ message_id := "m1", rating := 5 }] }
    "m1" "s2"

/-- C1, counterexample: the trigger path performs no lookup of existing
sessions, so two evaluations for the same message — at counts 3 and 4 —
leave two pending `model_optimization` sessions referencing `m1`, refuting
the at-most-one guarantee. -/
theorem trigger_duplicate_sessions_cex :
    (activeSessionsFor c1State2 "m1").length = 2 ∧
    countFeedback c1State0 "m1" = feedback_threshold := by
  constructor
  · show (List.filter _ _).length = 2
    norm_num [c1State2, c1State0, check_model_optimization_trigger,
      countFeedback, feedback_threshold, activeSessionsFor,
      avgFeedbackRating]
  · decide

/-- C1, amended: every evaluation of the trigger where the feedback count
for `message_id` has reached the threshold appends exactly one new pending
session referencing that message, regardless of the sessions already
present — there is no idempotence guard, so repeated evaluations for the
same message accumulate one session each. -/
theorem trigger_always_inserts_on_threshold (st : TriggerState)
    (mid newId : String) :
    (check_model_optimization_trigger st mid newId).sessions.length =
      st.sessions.length +
        (if feedback_threshold ≤ countFeedback st mid then 1 else 0) ∧
    (activeSessionsFor
        (check_model_optimization_trigger st mid newId) mid).length =
      (activeSessionsFor st mid).length +
        (if feedback_threshold ≤ countFeedback st mid then 1 else 0) := by
  unfold check_model_optimization_trigger activeSessionsFor
  by_cases h : feedback_threshold ≤ countFeedback st mid
  · simp [h, List.filter_append]
  · simp [h]

/-- A learning session already in the terminal status `completed`. -/
def c2CompletedSession : LearningSession :=
  { id := "s9", session_type := "model_optimization", status := .completed
    trigger_message_id := "m9", feedback_count := 3, avg_rating := 3
    output_data := some [("session_id", "s9")], error_message := none }

/-- C2, counterexample: the runner's `pending → running` update carries no
status check — applied to a session already in the terminal status
`completed`, it moves it to `running`, so re-entry is not rejected and
terminal states are not absorbing. -/
theorem terminal_session_promoted_cex :
    c2CompletedSession.status = SessionStatus.completed ∧
    (markRunning c2CompletedSession).status = SessionStatus.running := by
  exact ⟨rfl, rfl⟩

/-- C2, amended: the runner promotes any session to `running`
unconditionally, whatever its current status (no rejection of re-entry);
after the run, the status is `completed` exactly when the handler returned
a dictionary without the `error` key, and `failed` when the dictionary
carried the marker or the handler raised. -/
theorem runner_promotes_unconditionally (s : LearningSession)
    (h : HandlerOutcome) :
    (markRunning s).status = SessionStatus.running ∧
    (run_learning_session s h).status =
      (match h with
       | .result r =>
           if hasErrorKey r then SessionStatus.failed
           else SessionStatus.completed
       | .raises _ => SessionStatus.failed) := by
  refine ⟨rfl, ?_⟩
  cases h with
  | result r =>
      simp only [run_learning_session, finalizeSession, markRunning]
  | raises m => rfl

/-- A freshly created pending session (`output_data` and `error_message`
both null), as inserted by the trigger path. -/
def c3PendingSession : LearningSession :=
  { id := "s3", session_type := "model_optimization", status := .pending
    trigger_message_id := "m3", feedback_count := 3, avg_rating := 2
    output_data := none, error_message := none }

/-- C3, counterexample: when the handler returns a result carrying the
internal error marker, the session ends `failed` with `output_data`
populated but `error_message` still null — refuting both
`failed → error_message non-null` and `output_data populated iff
terminal` (the exception path conversely leaves `output_data` null). -/
theorem failed_without_error_message_cex :
    (run_learning_session c3PendingSession
        (.result [("error", "boom")])).status = SessionStatus.failed ∧
    (run_learning_session c3PendingSession
        (.result [("error", "boom")])).error_message = none ∧
    (run_learning_session c3PendingSession
        (.raises "boom")).status = SessionStatus.failed ∧
    (run_learning_session c3PendingSession
        (.raises "boom")).output_data = none := by
  refine ⟨?_, rfl, rfl, rfl⟩
  simp [run_learning_session, finalizeSession, markRunning,
    c3PendingSession, hasErrorKey]

/-- C3, amended: from a fresh pending session (both `output_data` and
`error_message` null), the runner establishes: `completed` implies
`output_data` non-null; on the handler-return path `output_data` is always
populated — even when the error marker forces status `failed` — and
`error_message` stays null; on the exception path the status is `failed`
with `error_message` non-null but `output_data` still null; and a non-null
`output_data` implies a terminal status. -/
theorem runner_output_error_population (s : LearningSession)
    (h : HandlerOutcome) (ho : s.output_data = none)
    (he : s.error_message = none) :
    ((run_learning_session s h).status = SessionStatus.completed →
      (run_learning_session s h).output_data ≠ none) ∧
    (∀ r, h = .result r →
      (run_learning_session s h).output_data = some r ∧
      (run_learning_session s h).error_message = none) ∧
    (∀ m, h = .raises m →
      (run_learning_session s h).status = SessionStatus.failed ∧
      (run_learning_session s h).error_message = some m ∧
      (run_learning_session s h).output_data = none) ∧
    ((run_learning_session s h).output_data ≠ none →
      (run_learning_session s h).status = SessionStatus.completed ∨
      (run_learning_session s h).status = SessionStatus.failed) := by
  cases h with
  | result r =>
      refine ⟨?_, ?_, ?_, ?_⟩
      · intro _
        simp [run_learning_session, finalizeSession, markRunning]
      · intro r' hr'
        cases hr'
        exact ⟨rfl, by simp [run_learning_session, finalizeSession,
          markRunning, he]⟩
      · intro m hm
        cases hm
      · intro _
        simp only [run_learning_session, finalizeSession, markRunning]
        by_cases hek : hasErrorKey r
        · right; simp [hek]
        · left; simp [hek]
  | raises m =>
      refine ⟨?_, ?_, ?_, ?_⟩
      · intro hc
        simp [run_learning_session, markFailedSession, markRunning] at hc
      · intro r' hr'
        cases hr'
      · intro m' hm'
        cases hm'
        exact ⟨rfl, rfl, by simp [run_learning_session, markFailedSession,
          markRunning, ho]⟩
      · intro hno
        exact Or.inr rfl

/-- C3, witness: a concrete run from a fresh pending session whose handler
returns `{"result": "ok"}` — the hypotheses of the population theorem hold
and the session's `output_data` is populated with that dictionary. -/
theorem runner_output_error_population_witness :
    c3PendingSession.output_data = none ∧
    c3PendingSession.error_message = none ∧
    (run_learning_session c3PendingSession
        (.result [("result", "ok")])).output_data =
      some [("result", "ok")] := by
  refine ⟨rfl, rfl, ?_⟩
  exact ((runner_output_error_population c3PendingSession
    (.result [("result", "ok")]) rfl rfl).2.1 [("result", "ok")] rfl).1

/-- The temperature branch leaves `top_p` untouched. -/
theorem tuneTemperature_top_p (fa : FeedbackAnalysis) (cfg : ModelConfig) :
    (tuneTemperature fa cfg).top_p = cfg.top_p := by
  unfold tuneTemperature
  split_ifs <;> rfl

/-- The temperature branch leaves `frequency_penalty` untouched. -/
theorem tuneTemperature_frequency_penalty (fa : FeedbackAnalysis)
    (cfg : ModelConfig) :
    (tuneTemperature fa cfg).frequency_penalty = cfg.frequency_penalty := by
  unfold tuneTemperature
  split_ifs <;> rfl

/-- The negative-rate branch leaves `temperature` untouched. -/
theorem tuneNegativeRate_temperature (fa : FeedbackAnalysis)
    (cfg : ModelConfig) :
    (tuneNegativeRate fa cfg).temperature = cfg.temperature := by
  unfold tuneNegativeRate
  split_ifs <;> rfl

/-- C4: for every input statistics dictionary and every starting
configuration within the safety bounds, the tuned configuration satisfies
`temperature ∈ [0.3, 0.9]`, `top_p ≥ 0.7` and `frequency_penalty ≤ 1.0`;
moreover the conservative branch (low rating, ≥10 samples) sets
`temperature = max(0.3, current−0.1)`, the creative branch (high rating,
≥10 samples) sets `temperature = min(0.9, current+0.1)`, and a
negative-feedback rate above 0.3 sets `top_p = max(0.7, current−0.1)` and
`frequency_penalty = min(1.0, current+0.1)` regardless of the temperature
branch taken. -/
theorem tuner_bounds (fa : FeedbackAnalysis) (cfg : ModelConfig)
    (ht1 : 3/10 ≤ cfg.temperature) (ht2 : cfg.temperature ≤ 9/10)
    (hp : 7/10 ≤ cfg.top_p) (hf : cfg.frequency_penalty ≤ 1) :
    (3/10 ≤ (optimize_model_parameters fa cfg).temperature ∧
     (optimize_model_parameters fa cfg).temperature ≤ 9/10 ∧
     7/10 ≤ (optimize_model_parameters fa cfg).top_p ∧
     (optimize_model_parameters fa cfg).frequency_penalty ≤ 1) ∧
    (fa.average_rating.getD 3 < 3 ∧ 10 ≤ fa.total_feedback.getD 0 →
      (optimize_model_parameters fa cfg).temperature =
        max (3/10) (cfg.temperature - 1/10)) ∧
    (4 < fa.average_rating.getD 3 ∧ 10 ≤ fa.total_feedback.getD 0 →
      (optimize_model_parameters fa cfg).temperature =
        min (9/10) (cfg.temperature + 1/10)) ∧
    (3/10 < fa.negative_feedback_rate.getD 0 →
      (optimize_model_parameters fa cfg).top_p =
        max (7/10) (cfg.top_p - 1/10) ∧
      (optimize_model_parameters fa cfg).frequency_penalty =
        min 1 (cfg.frequency_penalty + 1/10)) := by
  have htemp1 : 3/10 ≤ (tuneTemperature fa cfg).temperature ∧
      (tuneTemperature fa cfg).temperature ≤ 9/10 := by
    unfold tuneTemperature
    split_ifs with h1 h2
    · exact ⟨le_max_left _ _, max_le (by norm_num) (by linarith)⟩
    · exact ⟨le_min (by norm_num) (by linarith), min_le_left _ _⟩
    · exact ⟨ht1, ht2⟩
  refine ⟨⟨?_, ?_, ?_, ?_⟩, ?_, ?_, ?_⟩
  · rw [optimize_model_parameters, tuneNegativeRate_temperature]
    exact htemp1.1
  · rw [optimize_model_parameters, tuneNegativeRate_temperature]
    exact htemp1.2
  · rw [optimize_model_parameters]
    unfold tuneNegativeRate
    split_ifs
    · exact le_max_left _ _
    · rw [tuneTemperature_top_p]; exact hp
  · rw [optimize_model_parameters]
    unfold tuneNegativeRate
    split_ifs
    · exact min_le_left _ _
    · rw [tuneTemperature_frequency_penalty]; exact hf
  · intro hc
    rw [optimize_model_parameters, tuneNegativeRate_temperature,
      tuneTemperature, if_pos hc]
  · intro hc
    have hnc : ¬ (fa.average_rating.getD 3 < 3 ∧
        10 ≤ fa.total_feedback.getD 0) := by
      rintro ⟨hlt, -⟩
      linarith [hc.1]
    rw [optimize_model_parameters, tuneNegativeRate_temperature,
      tuneTemperature, if_neg hnc, if_pos hc]
  · intro hr
    constructor
    · rw [optimize_model_parameters, tuneNegativeRate, if_pos hr,
        tuneTemperature_top_p]
    · rw [optimize_model_parameters, tuneNegativeRate, if_pos hr,
        tuneTemperature_frequency_penalty]

/-- C4, witness: the bounds and branch equations evaluated at the initial
configuration with statistics `average_rating = 2`, `total_feedback = 10`,
`negative_feedback_rate = 0.4`: the tuned configuration is temperature
0.6, top_p 0.8, frequency_penalty 0.1, inside all bounds. -/
theorem tuner_bounds_witness :
    (3/10 ≤ initialModelConfig.temperature ∧
     initialModelConfig.temperature ≤ 9/10 ∧
     7/10 ≤ initialModelConfig.top_p ∧
     initialModelConfig.frequency_penalty ≤ 1) ∧
    (optimize_model_parameters
        { average_rating := some 2, total_feedback := some 10
          negative_feedback_rate := some (2/5) }
        initialModelConfig).temperature =
      max (3/10) (initialModelConfig.temperature - 1/10) ∧
    (optimize_model_parameters
        { average_rating := some 2, total_feedback := some 10
          negative_feedback_rate := some (2/5) }
        initialModelConfig).top_p =
      max (7/10) (initialModelConfig.top_p - 1/10) := by
  have hb : (3:ℚ)/10 ≤ initialModelConfig.temperature ∧
      initialModelConfig.temperature ≤ 9/10 ∧
      (7:ℚ)/10 ≤ initialModelConfig.top_p ∧
      initialModelConfig.frequency_penalty ≤ 1 := by
    norm_num [initialModelConfig]
  have h := tuner_bounds
    { average_rating := some 2, total_feedback := some 10
      negative_feedback_rate := some (2/5) }
    initialModelConfig hb.1 hb.2.1 hb.2.2.1 hb.2.2.2
  exact ⟨hb, h.2.1 (by norm_num), (h.2.2.2 (by norm_num)).1⟩

/-- C6: for feedback with rating ≥ 4 and a comment longer than 20
characters, processing creates exactly one knowledge item in the
user-insights category (`insights_usuarios`, confidence 0.8, built from
the comment), plus exactly one positive-responses item
(`respostas_positivas`, confidence 0.9) when the rated message content is
longer than 100 characters and none otherwise; no other knowledge and no
metric is written by this path. -/
theorem positive_feedback_knowledge (rating : ℤ) (content c : String)
    (hr : 4 ≤ rating) (hc : 20 < c.length) :
    ((process_feedback_for_learning rating content (some c)).1.filter
        (fun k => k.category = "insights_usuarios")).length = 1 ∧
    ((process_feedback_for_learning rating content (some c)).1.filter
        (fun k => k.category = "respostas_positivas")).length =
      (if 100 < content.length then 1 else 0) ∧
    (process_feedback_for_learning rating content (some c)).1.length =
      (if 100 < content.length then 1 else 0) + 1 ∧
    ({ content := c, category := "insights_usuarios"
       source := "comentario_positivo", confidence_score := 8/10 } :
        KnowledgeWrite) ∈
      (process_feedback_for_learning rating content (some c)).1 ∧
    (∀ k ∈ (process_feedback_for_learning rating content (some c)).1,
      k.category = "insights_usuarios" ∨
      k.category = "respostas_positivas") ∧
    (process_feedback_for_learning rating content (some c)).2 = [] := by
  have hdisp : process_feedback_for_learning rating content (some c) =
      (process_positive_feedback content (some c), []) := by
    unfold process_feedback_for_learning
    rw [if_pos hr]
  have hpos : process_positive_feedback content (some c) =
      (if 100 < content.length then
        [{ content := content, category := "respostas_positivas"
           source := "feedback_positivo", confidence_score := 9/10 }]
      else []) ++
      [{ content := c, category := "insights_usuarios"
         source := "comentario_positivo", confidence_score := 8/10 }] := by
    show (if 100 < content.length then _ else []) ++
        (if 20 < c.length then _ else []) = _
    rw [if_pos hc]
  rw [hdisp]
  by_cases h100 : 100 < content.length <;> simp [hpos, h100]

/-- C7: for feedback with rating ≤ 2, processing creates no knowledge
item; the comment, when present, is classified by keyword matching and one
`improvement_needed_<area>` metric is recorded per identified area; every
identified area — and every area the batch classifier
`_extract_improvement_area` can return — lies in the taxonomy
`{performance, accuracy, clarity, completeness, general}`. -/
theorem negative_feedback_no_knowledge (rating : ℤ) (content : String)
    (comment : Option String) (hr : rating ≤ 2) :
    (process_feedback_for_learning rating content comment).1 = [] ∧
    (process_feedback_for_learning rating content comment).2 =
      (improvementAreasOf comment).map
        (fun area =>
          { name := "improvement_needed_" ++ area, value := 1 }) ∧
    (∀ a ∈ improvementAreasOf comment, a ∈ improvementTaxonomy) ∧
    (∀ c : String, extract_improvement_area c ∈ improvementTaxonomy) := by
  have h4 : ¬ (4 ≤ rating) := by omega
  have hdisp : process_feedback_for_learning rating content comment =
      ([], process_negative_feedback comment) := by
    unfold process_feedback_for_learning
    rw [if_neg h4, if_pos hr]
  refine ⟨by rw [hdisp], by rw [hdisp]; rfl, ?_, ?_⟩
  · cases comment with
    | none => simp [improvementAreasOf]
    | some c =>
        intro a ha
        simp only [improvementAreasOf] at ha
        split_ifs at ha <;>
          simp only [improvementTaxonomy, List.mem_append, List.mem_cons,
            List.not_mem_nil, or_false, false_or] at ha ⊢ <;>
          tauto
  · intro c
    simp only [extract_improvement_area]
    split_ifs <;> simp [improvementTaxonomy]

/-- C6, witness: rating 5 with a 21-character comment and a short message
content — exactly the one `insights_usuarios` item is created and no
`respostas_positivas` item. -/
theorem positive_feedback_knowledge_witness :
    (4 : ℤ) ≤ 5 ∧
    20 < ("aaaaaaaaaaaaaaaaaaaaa" : String).length ∧
    ((process_feedback_for_learning 5 "short"
        (some "aaaaaaaaaaaaaaaaaaaaa")).1.filter
        (fun k => k.category = "insights_usuarios")).length = 1 ∧
    (process_feedback_for_learning 5 "short"
        (some "aaaaaaaaaaaaaaaaaaaaa")).1.length = 1 := by
  have h := positive_feedback_knowledge 5 "short" "aaaaaaaaaaaaaaaaaaaaa"
    (by decide) (by decide)
  refine ⟨by decide, by decide, h.1, ?_⟩
  have h3 := h.2.2.1
  rwa [if_neg (by decide : ¬ (100 < ("short" : String).length))] at h3

/-- C7, witness: rating 1 with the comment `"errado e confuso"` — no
knowledge is created and exactly the accuracy and clarity metrics are
recorded. -/
theorem negative_feedback_no_knowledge_witness :
    (1 : ℤ) ≤ 2 ∧
    (process_feedback_for_learning 1 "m" (some "errado e confuso")).1 =
      [] ∧
    (process_feedback_for_learning 1 "m" (some "errado e confuso")).2 =
      [{ name := "improvement_needed_accuracy", value := 1 },
       { name := "improvement_needed_clarity", value := 1 }] := by
  have h := negative_feedback_no_knowledge 1 "m"
    (some "errado e confuso") (by decide)
  refine ⟨by decide, h.1, ?_⟩
  rw [h.2.1]
  have hareas : improvementAreasOf (some "errado e confuso") =
      ["accuracy", "clarity"] := by decide
  rw [hareas]
  rfl

/-- Daily bucketing returns its points with days in ascending order. -/
theorem dailyAverages_days_sorted (rows : List (ℕ × ℚ)) :
    List.Sorted (· ≤ ·) ((dailyAverages rows).map (·.day)) := by
  unfold dailyAverages
  rw [List.map_map]
  have hcomp :
      ((fun p : DailyPoint => p.day) ∘ fun d =>
        ({ day := d
           avg := (rows.filterMap
             (fun r => if r.1 = d then some r.2 else none)).sum /
             (rows.filterMap
               (fun r => if r.1 = d then some r.2 else none)).length
           samples := (rows.filterMap
             (fun r => if r.1 = d then some r.2 else none)).length } :
           DailyPoint)) = id := by
    funext d
    rfl
  rw [hcomp, List.map_id]
  exact List.sorted_insertionSort _ _

/-- C9: the trend series are daily-bucketed and ordered by date ascending;
whenever the mean of the 3 most recent daily response-time averages
exceeds 5.0, the analysis emits a `performance_degradation` alert as a
gauge metric of severity medium; and whenever the mean of the 3 most
recent daily satisfaction averages is below 3.0, it emits a
`satisfaction_decline` gauge of severity high. -/
theorem trend_alerts (metricRows : List MetricRow)
    (feedbackDays : List (ℕ × ℚ)) :
    List.Sorted (· ≤ ·)
      ((get_performance_trends metricRows feedbackDays).1.map (·.day)) ∧
    List.Sorted (· ≤ ·)
      ((get_performance_trends metricRows feedbackDays).2.map (·.day)) ∧
    (3 ≤ (get_performance_trends metricRows feedbackDays).1.length →
      5 < recentMean (get_performance_trends metricRows feedbackDays).1 →
      ({ metric_name := "system_alert"
         value := recentMean (get_performance_trends metricRows feedbackDays).1
         metric_type := "gauge", alert_type := "performance_degradation"
         severity := "medium" } : AlertWrite) ∈
        analyze_trends_from_rows metricRows feedbackDays) ∧
    (3 ≤ (get_performance_trends metricRows feedbackDays).2.length →
      recentMean (get_performance_trends metricRows feedbackDays).2 < 3 →
      ({ metric_name := "system_alert"
         value := recentMean (get_performance_trends metricRows feedbackDays).2
         metric_type := "gauge", alert_type := "satisfaction_decline"
         severity := "high" } : AlertWrite) ∈
        analyze_trends_from_rows metricRows feedbackDays) := by
  refine ⟨dailyAverages_days_sorted _, dailyAverages_days_sorted _, ?_, ?_⟩
  · intro hlen hmean
    unfold analyze_trends_from_rows analyze_performance_trends
    refine List.mem_append.mpr (Or.inr ?_)
    rw [if_pos hlen, if_pos hmean]
    exact List.mem_singleton.mpr rfl
  · intro hlen hmean
    unfold analyze_trends_from_rows analyze_performance_trends
    refine List.mem_append.mpr (Or.inl ?_)
    rw [if_pos hlen, if_pos hmean]
    exact List.mem_singleton.mpr rfl

/-- Raw metric rows of the C9 scenario: one `response_time` sample per day
for 3 days, with daily averages `[6.2, 5.8, 6.5]`. -/
def c9Rows : List MetricRow :=
  [{ metric_name := "response_time", day := 0, value := 31/5 },
   { metric_name := "response_time", day := 1, value := 29/5 },
   { metric_name := "response_time", day := 2, value := 13/2 }]

/-- C9, witness: over daily response-time averages `[6.2, 5.8, 6.5]`
(3-day mean 37/6 ≈ 6.17 > 5.0), the weekly trend task emits the
`performance_degradation` gauge alert of severity medium. -/
theorem trend_alerts_witness :
    3 ≤ (get_performance_trends c9Rows []).1.length ∧
    (5 : ℚ) < recentMean (get_performance_trends c9Rows []).1 ∧
    recentMean (get_performance_trends c9Rows []).1 = 37/6 ∧
    ({ metric_name := "system_alert"
       value := recentMean (get_performance_trends c9Rows []).1
       metric_type := "gauge", alert_type := "performance_degradation"
       severity := "medium" } : AlertWrite) ∈
      analyze_trends_from_rows c9Rows [] := by
  have hrt : (get_performance_trends c9Rows []).1 =
      [{ day := 0, avg := 31/5, samples := 1 },
       { day := 1, avg := 29/5, samples := 1 },
       { day := 2, avg := 13/2, samples := 1 }] := by
    norm_num [get_performance_trends, dailyAverages, c9Rows,
      List.insertionSort, List.orderedInsert, List.filterMap_cons]
  have hlen : 3 ≤ (get_performance_trends c9Rows []).1.length := by
    rw [hrt]
    simp
  have hm : recentMean (get_performance_trends c9Rows []).1 = 37/6 := by
    rw [hrt]
    norm_num [recentMean, lastThree]
  have hgt : (5 : ℚ) < recentMean (get_performance_trends c9Rows []).1 := by
    rw [hm]; norm_num
  exact ⟨hlen, hgt, hm, (trend_alerts c9Rows []).2.2.1 hlen hgt⟩

end OpenManus
